import Mathlib

/-!
Shallow embedding of `starfiel.py`, a single-file pygame starfield demo.

Python floats are modelled as exact rationals (`ℚ`).  Every call to
`random.uniform` / `random.randint` / `random.choice` is modelled by an
explicit input parameter, so each embedded function is a deterministic
function of its state plus the random draws consumed by that call.
`math.cos r` and `math.sin r` are likewise passed in as explicit rational
inputs `cosr`, `sinr` since nothing proved here depends on their values.
Python `int(...)` is exact truncation toward zero.
-/

namespace Starfield

/-- Config: window width in pixels. -/
def WIDTH : ℚ := 1000

/-- Config: window height in pixels. -/
def HEIGHT : ℚ := 700

/-- Config: number of stars. -/
def NUM_STARS : ℕ := 700

/-- Config: base approach speed. -/
def BASE_SPEED : ℚ := 0.8

/-- Config: boost factor when holding space. -/
def BOOST_MULT : ℚ := 3.5

/-- Config: how many previous projected positions a star keeps. -/
def TRAIL_LENGTH : ℕ := 6

/-- Config: per-frame probability of spawning a shooting star. -/
def SHOOTING_STAR_PROB : ℚ := 0.002

/-- Config: audio block size. -/
def AUDIO_BLOCK : ℕ := 1024

/-- Config: audio sample rate. -/
def AUDIO_SAMPLERATE : ℕ := 44100

/-- Helper `clamp(v, a, b) = max(a, min(b, v))` from the source. -/
def clamp (v a b : ℚ) : ℚ := max a (min b v)

/-- Helper `lerp(a, b, t) = a + (b - a) * t` from the source. -/
def lerp (a b t : ℚ) : ℚ := a + (b - a) * t

/-- Python `int(...)` on an exact rational value: truncation toward zero. -/
def pyInt (q : ℚ) : ℤ := if q < 0 then -(⌊-q⌋) else ⌊q⌋

/-- First branch of `color_gradient` (blue to white), i.e. the `t < 0.33`
case applied to an already clamped argument. -/
def gradPiece1 (t : ℚ) : ℤ × ℤ × ℤ :=
  let tt := t / 0.33
  (pyInt (lerp 80 255 tt), pyInt (lerp 120 255 tt), pyInt (lerp 200 255 tt))

/-- Second branch of `color_gradient` (white to yellow), i.e. the
`0.33 ≤ t < 0.66` case applied to an already clamped argument. -/
def gradPiece2 (t : ℚ) : ℤ × ℤ × ℤ :=
  let tt := (t - 0.33) / 0.33
  (pyInt (lerp 255 255 tt), pyInt (lerp 255 220 tt), pyInt (lerp 255 80 tt))

/-- Third branch of `color_gradient` (yellow to red), i.e. the final `else`
case applied to an already clamped argument. -/
def gradPiece3 (t : ℚ) : ℤ × ℤ × ℤ :=
  let tt := (t - 0.66) / 0.34
  (pyInt (lerp 255 255 tt), pyInt (lerp 220 100 tt), pyInt (lerp 80 40 tt))

/-- The first clamping statement of `color_gradient`: `if t < 0: t = 0`. -/
def clampLow (t : ℚ) : ℚ := if t < 0 then 0 else t

/-- The value of `t` after both clamping statements of `color_gradient`:
`if t < 0: t = 0` followed by `if t > 1: t = 1`. -/
def clampT (t : ℚ) : ℚ := if clampLow t > 1 then 1 else clampLow t

/-- `color_gradient(t)` from the source: clamp `t` to `[0, 1]` with the two
sequential `if`s, then dispatch on the three segments. -/
def color_gradient (t : ℚ) : ℤ × ℤ × ℤ :=
  if clampT t < 0.33 then gradPiece1 (clampT t)
  else if clampT t < 0.66 then gradPiece2 (clampT t)
  else gradPiece3 (clampT t)

/-- The `Star` entity: 3D position, screen dimensions, the trail history
`prev` of projected positions, and visual parameters. -/
structure Star where
  w : ℚ
  h : ℚ
  x : ℚ
  y : ℚ
  z : ℚ
  prev : List (ℚ × ℚ × ℚ)
  base_size : ℚ
  brightness : ℚ
  is_shooting : Bool

/-- The random draws consumed by one call to `Star.reset` (`rx`, `ry`, `rz`,
`rsize`, `rbright`), plus the extra far-range draw `rz2` that `Star.update`
uses to overwrite `z` right after a respawn,
`self.z = random.uniform(self.w * 0.6, self.w)`. -/
structure ResetDraws where
  rx : ℚ
  ry : ℚ
  rz : ℚ
  rsize : ℚ
  rbright : ℚ
  rz2 : ℚ

/-- `Star.reset`: fresh random position, empty trail, fresh visual params. -/
def Star.reset (s : Star) (rd : ResetDraws) : Star :=
  { s with
    x := rd.rx
    y := rd.ry
    z := rd.rz
    prev := []
    base_size := rd.rsize
    brightness := rd.rbright
    is_shooting := false }

/-- `Star.update(speed, offset_x, offset_y, rotation, spiral)`: optional
rotation (with `cosr`, `sinr` standing for `math.cos rotation` and
`math.sin rotation`), optional inward spiral scaling, approach by `speed`,
respawn at the near plane (`z ≤ 0.9`), perspective projection, and trail
bookkeeping.  Returns the updated star together with the returned triple
`(sx, sy, z)`. -/
def Star.update (s : Star) (speed offset_x offset_y rotation spiral : ℚ)
    (cosr sinr : ℚ) (rd : ResetDraws) : Star × (ℚ × ℚ × ℚ) :=
  let x1 := if rotation ≠ 0 then s.x * cosr - s.y * sinr else s.x
  let y1 := if rotation ≠ 0 then s.x * sinr + s.y * cosr else s.y
  let x2 := if spiral ≠ 0 then x1 * (1 - spiral * 0.0006) else x1
  let y2 := if spiral ≠ 0 then y1 * (1 - spiral * 0.0006) else y1
  let z2 := s.z - speed
  let res := if z2 ≤ 0.9 then { Star.reset s rd with z := rd.rz2 }
             else { s with x := x2, y := y2, z := z2 }
  let sx := (res.x / res.z) * (res.w / 2) + res.w / 2 + offset_x
  let sy := (res.y / res.z) * (res.h / 2) + res.h / 2 + offset_y
  let prev1 := (sx, sy, res.z) :: res.prev
  let prev2 := if prev1.length > TRAIL_LENGTH then prev1.dropLast else prev1
  ({ res with prev := prev2 }, (sx, sy, res.z))

/-- Which of the three screen edges `random.choice(['top','left','right'])`
picked for a shooting-star spawn. -/
inductive Edge where
  | top
  | left
  | right

/-- The `ShootingStar` entity: 2D position and velocity, age and lifetime
counters, streak length. -/
structure ShootingStar where
  w : ℚ
  h : ℚ
  x : ℚ
  y : ℚ
  vx : ℚ
  vy : ℚ
  life : ℕ
  age : ℕ
  length : ℚ

/-- `ShootingStar.__init__`: spawn at the chosen edge.  `rpos` is the
`random.uniform` draw for the coordinate along the edge, `rvx`/`rvy` the
velocity draws, `rlife` the `random.randint(80, 160)` draw and `rlen` the
streak-length draw. -/
def ShootingStar.spawn (width height : ℚ) (edge : Edge) (rpos rvx rvy : ℚ)
    (rlife : ℕ) (rlen : ℚ) : ShootingStar :=
  match edge with
  | Edge.top =>
      { w := width, h := height, x := rpos, y := -20, vx := rvx, vy := rvy,
        life := rlife, age := 0, length := rlen }
  | Edge.left =>
      { w := width, h := height, x := -20, y := rpos, vx := rvx, vy := rvy,
        life := rlife, age := 0, length := rlen }
  | Edge.right =>
      { w := width, h := height, x := width + 20, y := rpos, vx := rvx, vy := rvy,
        life := rlife, age := 0, length := rlen }

/-- `ShootingStar.update`: straight-line step plus age increment; returns the
updated star and the `self.age < self.life` liveness flag the method
returns. -/
def ShootingStar.update (s : ShootingStar) : ShootingStar × Bool :=
  let s1 := { s with x := s.x + s.vx, y := s.y + s.vy, age := s.age + 1 }
  (s1, decide (s1.age < s1.life))

/-- The star after `n` frames' worth of `ShootingStar.update` calls. -/
def iterUpdate (s : ShootingStar) : ℕ → ShootingStar
  | 0 => s
  | n + 1 => (ShootingStar.update (iterUpdate s n)).1

/-- One pass of the main loop over the shooting-star collection
(lines 352-355): each member is updated and is kept exactly when `update`
returned `True`. -/
def shootingPass : List ShootingStar → List ShootingStar
  | [] => []
  | s :: rest =>
      let r := ShootingStar.update s
      if r.2 then r.1 :: shootingPass rest else shootingPass rest

/-- The shooting star (spawned with `age = 0`) is removed from the active
collection at frame `k` (1-indexed): the update of frame `k` returned dead,
and every earlier frame's update returned alive. -/
def removedAtFrame (s : ShootingStar) (k : ℕ) : Prop :=
  shootingPass [iterUpdate s (k - 1)] = [] ∧
  ∀ m : ℕ, m + 1 < k → shootingPass [iterUpdate s m] ≠ []

/-- The bounds check of line 321, `0 <= sx < WIDTH and 0 <= sy < HEIGHT`. -/
def inScreenB (width height sx sy : ℚ) : Bool :=
  decide (0 ≤ sx ∧ sx < width ∧ 0 ≤ sy ∧ sy < height)

/-- The coordinate pairs a single star contributes to draw calls in one frame
(lines 321-345), given its projected position `(sx, sy)` and its
post-update trail `prevs`: nothing when the bounds check fails; otherwise
the circle centre, and with trails on also both endpoints of each trail
line (previous point and current point, as passed to `pygame.draw.line`). -/
def starDrawCoords (width height sx sy : ℚ) (prevs : List (ℚ × ℚ × ℚ))
    (trails : Bool) : List (ℚ × ℚ) :=
  if inScreenB width height sx sy then
    if trails then
      ((pyInt sx : ℚ), (pyInt sy : ℚ)) ::
        (if prevs.length > 1 then
          (prevs.drop 1).foldr
            (fun p acc =>
              ((pyInt p.1 : ℚ), (pyInt p.2.1 : ℚ)) ::
                ((pyInt sx : ℚ), (pyInt sy : ℚ)) :: acc)
            []
        else [])
    else [((pyInt sx : ℚ), (pyInt sy : ℚ))]
  else []

/-- One shooting star's share of the frame (lines 352-362): update it; when
it stays alive, emit the coordinate pairs passed to the draw calls, namely
both endpoints of the streak line (floats passed through unconverted) and
the head circle centre (passed through `int(...)`). -/
def shootingFrame (s : ShootingStar) : ShootingStar × Bool × List (ℚ × ℚ) :=
  let r := ShootingStar.update s
  if r.2 then
    (r.1, true,
      [(r.1.x, r.1.y),
       (r.1.x - r.1.vx * 3, r.1.y - r.1.vy * 3),
       ((pyInt r.1.x : ℚ), (pyInt r.1.y : ℚ))])
  else (r.1, false, [])

/-- The `AudioAnalyzer` state: block size, sample rate, the shared scalar
`latest_level`, and the `running` flag. -/
structure AudioAnalyzer where
  block : ℕ
  sr : ℕ
  latest_level : ℚ
  running : Bool

/-- `AudioAnalyzer.__init__` (lines 167-179).  The `sd.InputStream`
constructor / `stream.start()` pair is modelled by the flag `streamFails`;
the method's own `except` clause prints the failure message and leaves
`running = False`, so `__init__` itself never raises.  Returns the analyzer
together with whether the failure message was printed. -/
def AudioAnalyzer.start (streamFails : Bool) : AudioAnalyzer × Bool :=
  let a : AudioAnalyzer :=
    { block := AUDIO_BLOCK, sr := AUDIO_SAMPLERATE, latest_level := 0, running := false }
  if streamFails then (a, true)
  else ({ a with running := true }, false)

/-- `AudioAnalyzer.get_level`. -/
def AudioAnalyzer.get_level (a : AudioAnalyzer) : ℚ :=
  a.latest_level

/-- One delivered audio block, as seen by `AudioAnalyzer._callback`: either
the FFT branch succeeded with mean magnitude `val`, or it raised and the RMS
fallback with value `rms` is used.  Both values are arbitrary rationals
standing for the numpy computation's result. -/
inductive AudioBlockEvent where
  | fftOk (val : ℚ)
  | fftFail (rms : ℚ)

/-- `AudioAnalyzer._callback` on one block: store the clamped, heuristically
scaled level. -/
def AudioAnalyzer.callbackStep (a : AudioAnalyzer) (e : AudioBlockEvent) : AudioAnalyzer :=
  match e with
  | AudioBlockEvent.fftOk val => { a with latest_level := clamp (val * 10) 0 1.5 }
  | AudioBlockEvent.fftFail r => { a with latest_level := clamp (r * 10) 0 1.5 }

/-- The analyzer state after a sequence of delivered audio blocks. -/
def AudioAnalyzer.runCallbacks (a : AudioAnalyzer) (es : List AudioBlockEvent) : AudioAnalyzer :=
  es.foldl AudioAnalyzer.callbackStep a

/-- Lines 232-240 of `main`: audio setup.  When the optional deps are
available an `AudioAnalyzer` is constructed (its `__init__` catches the
stream failure itself, so construction always succeeds), and the subsequent
`if audio_analyzer: audio_enabled = True` fires on any constructed analyzer
object.  Returns `(audio_analyzer, audio_enabled)`. -/
def audioSetup (available streamFails : Bool) : Option AudioAnalyzer × Bool :=
  if available then
    let a := (AudioAnalyzer.start streamFails).1
    (some a, true)
  else (none, false)

/-- Lines 291-297 of `main`: per-frame audio influence.  Returns the frame's
`audio_level` together with the updated `speed_mult`. -/
def audioInfluence (audio_enabled : Bool) (analyzer : Option AudioAnalyzer)
    (speed_mult : ℚ) : ℚ × ℚ :=
  match audio_enabled, analyzer with
  | true, some a =>
      let lvl := clamp (AudioAnalyzer.get_level a) 0 1.5
      (lvl, speed_mult * (1 + lvl * 0.9))
  | true, none => (0, speed_mult)
  | false, _ => (0, speed_mult)

/-- The mode flags of `main`'s loop plus the trail surface, modelled as a
pixel map to RGBA values. -/
structure LoopState where
  spiral_enabled : Bool
  trails_enabled : Bool
  color_mode : Bool
  audio_enabled : Bool
  running : Bool
  trail_surf : ℕ → ℕ → ℤ × ℤ × ℤ × ℤ

/-- The keys handled by the `KEYDOWN` branch of the event loop. -/
inductive Key where
  | escape
  | q
  | s
  | t
  | c
  | a
  | other

/-- The `KEYDOWN` handler (lines 254-271).  The T branch toggles
`trails_enabled` and, when the toggle turned trails off, clears the trail
surface with `trail_surf.fill((0,0,0,0))`. -/
def handleKeydown (st : LoopState) (k : Key) (audioAvail hasAnalyzer : Bool) : LoopState :=
  match k with
  | Key.escape => { st with running := false }
  | Key.q => { st with running := false }
  | Key.s => { st with spiral_enabled := !st.spiral_enabled }
  | Key.t =>
      let st1 := { st with trails_enabled := !st.trails_enabled }
      if st1.trails_enabled then st1
      else { st1 with trail_surf := fun _ _ => (0, 0, 0, 0) }
  | Key.c => { st with color_mode := !st.color_mode }
  | Key.a =>
      if audioAvail && hasAnalyzer then { st with audio_enabled := !st.audio_enabled }
      else st
  | Key.other => st

/-- Modelled from the spec and claim wording only, for comparison with the
source: a point lies on an edge of the screen rectangle
`[0, width] × [0, height]`. -/
def onScreenEdge (width height x y : ℚ) : Prop :=
  (x = 0 ∨ x = width ∨ y = 0 ∨ y = height) ∧
    0 ≤ x ∧ x ≤ width ∧ 0 ≤ y ∧ y ≤ height

instance (width height x y : ℚ) : Decidable (onScreenEdge width height x y) := by
  unfold onScreenEdge
  infer_instance

/-! Helper lemmas about `pyInt`, `clamp`, `lerp` and the clamping stage of
`color_gradient`. -/

lemma pyInt_mono {x y : ℚ} (h : x ≤ y) : pyInt x ≤ pyInt y := by
  unfold pyInt
  by_cases hx : x < 0
  · by_cases hy : y < 0
    · rw [if_pos hx, if_pos hy]
      have hf : ⌊-y⌋ ≤ ⌊-x⌋ := Int.floor_le_floor (by linarith)
      omega
    · rw [if_pos hx, if_neg hy]
      push_neg at hy
      have h1 : (0 : ℤ) ≤ ⌊-x⌋ := Int.floor_nonneg.mpr (by linarith)
      have h2 : (0 : ℤ) ≤ ⌊y⌋ := Int.floor_nonneg.mpr hy
      omega
  · push_neg at hx
    have hy : ¬ y < 0 := not_lt.mpr (le_trans hx h)
    rw [if_neg (not_lt.mpr hx), if_neg hy]
    exact Int.floor_le_floor h

lemma pyInt_nonneg {q : ℚ} (h : 0 ≤ q) : 0 ≤ pyInt q := by
  unfold pyInt
  rw [if_neg (not_lt.mpr h)]
  exact Int.floor_nonneg.mpr h

lemma pyInt_le {q : ℚ} {n : ℤ} (h0 : 0 ≤ q) (h : q ≤ (n : ℚ)) : pyInt q ≤ n := by
  unfold pyInt
  rw [if_neg (not_lt.mpr h0)]
  exact_mod_cast le_trans (Int.floor_le q) h

lemma clamp_mem {v a b : ℚ} (hab : a ≤ b) : a ≤ clamp v a b ∧ clamp v a b ≤ b :=
  ⟨le_max_left _ _, max_le hab (min_le_left _ _)⟩

lemma pyInt_lerp_le_of_le {a b x y : ℚ} (hab : a ≤ b) (hxy : x ≤ y) :
    pyInt (lerp a b x) ≤ pyInt (lerp a b y) := by
  apply pyInt_mono
  unfold lerp
  have hm : (b - a) * x ≤ (b - a) * y :=
    mul_le_mul_of_nonneg_left hxy (sub_nonneg.mpr hab)
  linarith

lemma pyInt_lerp_le_of_ge {a b x y : ℚ} (hab : b ≤ a) (hxy : x ≤ y) :
    pyInt (lerp a b y) ≤ pyInt (lerp a b x) := by
  apply pyInt_mono
  unfold lerp
  have hm : (b - a) * y ≤ (b - a) * x :=
    mul_le_mul_of_nonpos_left hxy (sub_nonpos.mpr hab)
  linarith

lemma pyInt_lerp_range {a b x : ℚ} (h0a : 0 ≤ a) (ha : a ≤ 255) (h0b : 0 ≤ b)
    (hb : b ≤ 255) (hx0 : 0 ≤ x) (hx1 : x ≤ 1) :
    0 ≤ pyInt (lerp a b x) ∧ pyInt (lerp a b x) ≤ 255 := by
  have hge : 0 ≤ lerp a b x := by
    unfold lerp
    nlinarith [mul_nonneg h0a (sub_nonneg.mpr hx1), mul_nonneg h0b hx0]
  have hle : lerp a b x ≤ 255 := by
    unfold lerp
    nlinarith [mul_nonneg (sub_nonneg.mpr ha) (sub_nonneg.mpr hx1),
      mul_nonneg (sub_nonneg.mpr hb) hx0]
  exact ⟨pyInt_nonneg hge, pyInt_le hge (by exact_mod_cast hle)⟩

lemma clampLow_of_nonpos {t : ℚ} (h : t ≤ 0) : clampLow t = 0 := by
  unfold clampLow
  rcases lt_or_eq_of_le h with h' | h'
  · rw [if_pos h']
  · rw [h']
    norm_num

lemma clampLow_of_nonneg {t : ℚ} (h : 0 ≤ t) : clampLow t = t := by
  unfold clampLow
  rw [if_neg (not_lt.mpr h)]

lemma clampLow_nonneg (t : ℚ) : 0 ≤ clampLow t := by
  unfold clampLow
  split_ifs with h
  · exact le_refl 0
  · push_neg at h
    exact h

lemma clampT_of_nonpos {t : ℚ} (h : t ≤ 0) : clampT t = 0 := by
  unfold clampT
  rw [clampLow_of_nonpos h]
  norm_num

lemma clampT_of_ge_one {t : ℚ} (h : 1 ≤ t) : clampT t = 1 := by
  unfold clampT
  rw [clampLow_of_nonneg (le_trans zero_le_one h)]
  rcases eq_or_lt_of_le h with h' | h'
  · rw [← h']
    norm_num
  · rw [if_pos h']

lemma clampT_of_mem {t : ℚ} (h0 : 0 ≤ t) (h1 : t ≤ 1) : clampT t = t := by
  unfold clampT
  rw [clampLow_of_nonneg h0]
  rw [if_neg (not_lt.mpr h1)]

lemma clampT_mem (t : ℚ) : 0 ≤ clampT t ∧ clampT t ≤ 1 := by
  unfold clampT
  split_ifs with h
  · norm_num
  · exact ⟨clampLow_nonneg t, le_of_not_lt h⟩

lemma lerp_self (a x : ℚ) : lerp a a x = a := by
  unfold lerp
  ring

lemma color_gradient_eq1 {t : ℚ} (h : clampT t < 0.33) :
    color_gradient t = gradPiece1 (clampT t) := by
  unfold color_gradient
  rw [if_pos h]

lemma color_gradient_eq2 {t : ℚ} (h1 : ¬ clampT t < 0.33) (h2 : clampT t < 0.66) :
    color_gradient t = gradPiece2 (clampT t) := by
  unfold color_gradient
  rw [if_neg h1, if_pos h2]

lemma color_gradient_eq3 {t : ℚ} (h1 : ¬ clampT t < 0.33) (h2 : ¬ clampT t < 0.66) :
    color_gradient t = gradPiece3 (clampT t) := by
  unfold color_gradient
  rw [if_neg h1, if_neg h2]

lemma gradPiece1_zero : gradPiece1 0 = (80, 120, 200) := by
  show (pyInt (lerp 80 255 (0 / 0.33)), pyInt (lerp 120 255 (0 / 0.33)),
    pyInt (lerp 200 255 (0 / 0.33))) = (80, 120, 200)
  norm_num [lerp, pyInt]

lemma gradPiece3_one : gradPiece3 1 = (255, 100, 40) := by
  show (pyInt (lerp 255 255 ((1 - 0.66) / 0.34)), pyInt (lerp 220 100 ((1 - 0.66) / 0.34)),
    pyInt (lerp 80 40 ((1 - 0.66) / 0.34))) = (255, 100, 40)
  norm_num [lerp, pyInt]

lemma div_le_div_const {x y c : ℚ} (hc : 0 < c) (h : x ≤ y) : x / c ≤ y / c := by
  rw [div_eq_mul_inv, div_eq_mul_inv]
  exact mul_le_mul_of_nonneg_right h (le_of_lt (inv_pos.mpr hc))

/-- C6: the color gradient is clamped at both ends (blue endpoint for
`t ≤ 0`, red endpoint for `t ≥ 1`), the two pieces adjacent to each internal
segment boundary (`0.33` and `0.66`) agree at that boundary, and within each
of the three segments every RGB channel is monotonic in `t`: all three
channels increase on the first segment, while on the second and third the
red channel is constant and the green and blue channels decrease. -/
theorem color_gradient_spec :
    (∀ t : ℚ, t ≤ 0 → color_gradient t = (80, 120, 200)) ∧
    (∀ t : ℚ, 1 ≤ t → color_gradient t = (255, 100, 40)) ∧
    (gradPiece1 0.33 = gradPiece2 0.33 ∧ gradPiece2 0.66 = gradPiece3 0.66) ∧
    (∀ t u : ℚ, 0 ≤ t → t ≤ u → u < 0.33 →
      (color_gradient t).1 ≤ (color_gradient u).1 ∧
      (color_gradient t).2.1 ≤ (color_gradient u).2.1 ∧
      (color_gradient t).2.2 ≤ (color_gradient u).2.2) ∧
    (∀ t u : ℚ, 0.33 ≤ t → t ≤ u → u < 0.66 →
      (color_gradient t).1 = (color_gradient u).1 ∧
      (color_gradient u).2.1 ≤ (color_gradient t).2.1 ∧
      (color_gradient u).2.2 ≤ (color_gradient t).2.2) ∧
    (∀ t u : ℚ, 0.66 ≤ t → t ≤ u → u ≤ 1 →
      (color_gradient t).1 = (color_gradient u).1 ∧
      (color_gradient u).2.1 ≤ (color_gradient t).2.1 ∧
      (color_gradient u).2.2 ≤ (color_gradient t).2.2) := by
  refine ⟨?_, ?_, ⟨?_, ?_⟩, ?_, ?_, ?_⟩
  · intro t ht
    have hc := clampT_of_nonpos ht
    rw [color_gradient_eq1 (by rw [hc]; norm_num), hc, gradPiece1_zero]
  · intro t ht
    have hc := clampT_of_ge_one ht
    rw [color_gradient_eq3 (by rw [hc]; norm_num) (by rw [hc]; norm_num), hc,
      gradPiece3_one]
  · have b11 : gradPiece1 0.33 = (255, 255, 255) := by
      show (pyInt (lerp 80 255 (0.33 / 0.33)), pyInt (lerp 120 255 (0.33 / 0.33)),
        pyInt (lerp 200 255 (0.33 / 0.33))) = (255, 255, 255)
      norm_num [lerp, pyInt]
    have b12 : gradPiece2 0.33 = (255, 255, 255) := by
      show (pyInt (lerp 255 255 ((0.33 - 0.33) / 0.33)),
        pyInt (lerp 255 220 ((0.33 - 0.33) / 0.33)),
        pyInt (lerp 255 80 ((0.33 - 0.33) / 0.33))) = (255, 255, 255)
      norm_num [lerp, pyInt]
    rw [b11, b12]
  · have b22 : gradPiece2 0.66 = (255, 220, 80) := by
      show (pyInt (lerp 255 255 ((0.66 - 0.33) / 0.33)),
        pyInt (lerp 255 220 ((0.66 - 0.33) / 0.33)),
        pyInt (lerp 255 80 ((0.66 - 0.33) / 0.33))) = (255, 220, 80)
      norm_num [lerp, pyInt]
    have b23 : gradPiece3 0.66 = (255, 220, 80) := by
      show (pyInt (lerp 255 255 ((0.66 - 0.66) / 0.34)),
        pyInt (lerp 220 100 ((0.66 - 0.66) / 0.34)),
        pyInt (lerp 80 40 ((0.66 - 0.66) / 0.34))) = (255, 220, 80)
      norm_num [lerp, pyInt]
    rw [b22, b23]
  · intro t u h0 htu hu
    have h0u : 0 ≤ u := le_trans h0 htu
    have hct : clampT t = t := clampT_of_mem h0 (by linarith)
    have hcu : clampT u = u := clampT_of_mem h0u (by linarith)
    have e_t : color_gradient t = gradPiece1 t := by
      rw [color_gradient_eq1 (by rw [hct]; linarith), hct]
    have e_u : color_gradient u = gradPiece1 u := by
      rw [color_gradient_eq1 (by rw [hcu]; linarith), hcu]
    rw [e_t, e_u]
    refine ⟨?_, ?_, ?_⟩
    · show pyInt (lerp 80 255 (t / 0.33)) ≤ pyInt (lerp 80 255 (u / 0.33))
      exact pyInt_lerp_le_of_le (by norm_num) (div_le_div_const (by norm_num) htu)
    · show pyInt (lerp 120 255 (t / 0.33)) ≤ pyInt (lerp 120 255 (u / 0.33))
      exact pyInt_lerp_le_of_le (by norm_num) (div_le_div_const (by norm_num) htu)
    · show pyInt (lerp 200 255 (t / 0.33)) ≤ pyInt (lerp 200 255 (u / 0.33))
      exact pyInt_lerp_le_of_le (by norm_num) (div_le_div_const (by norm_num) htu)
  · intro t u ht htu hu
    have hct : clampT t = t := clampT_of_mem (by linarith) (by linarith)
    have hcu : clampT u = u := clampT_of_mem (by linarith) (by linarith)
    have e_t : color_gradient t = gradPiece2 t := by
      rw [color_gradient_eq2 (by rw [hct]; push_neg; linarith) (by rw [hct]; linarith), hct]
    have e_u : color_gradient u = gradPiece2 u := by
      rw [color_gradient_eq2 (by rw [hcu]; push_neg; linarith) (by rw [hcu]; linarith), hcu]
    rw [e_t, e_u]
    have hdiv : (t - 0.33) / 0.33 ≤ (u - 0.33) / 0.33 :=
      div_le_div_const (by norm_num) (by linarith)
    refine ⟨?_, ?_, ?_⟩
    · show pyInt (lerp 255 255 ((t - 0.33) / 0.33)) = pyInt (lerp 255 255 ((u - 0.33) / 0.33))
      rw [lerp_self, lerp_self]
    · show pyInt (lerp 255 220 ((u - 0.33) / 0.33)) ≤ pyInt (lerp 255 220 ((t - 0.33) / 0.33))
      exact pyInt_lerp_le_of_ge (by norm_num) hdiv
    · show pyInt (lerp 255 80 ((u - 0.33) / 0.33)) ≤ pyInt (lerp 255 80 ((t - 0.33) / 0.33))
      exact pyInt_lerp_le_of_ge (by norm_num) hdiv
  · intro t u ht htu hu
    have hct : clampT t = t := clampT_of_mem (by linarith) (by linarith)
    have hcu : clampT u = u := clampT_of_mem (by linarith) hu
    have e_t : color_gradient t = gradPiece3 t := by
      rw [color_gradient_eq3 (by rw [hct]; push_neg; linarith)
        (by rw [hct]; push_neg; linarith), hct]
    have e_u : color_gradient u = gradPiece3 u := by
      rw [color_gradient_eq3 (by rw [hcu]; push_neg; linarith)
        (by rw [hcu]; push_neg; linarith), hcu]
    rw [e_t, e_u]
    have hdiv : (t - 0.66) / 0.34 ≤ (u - 0.66) / 0.34 :=
      div_le_div_const (by norm_num) (by linarith)
    refine ⟨?_, ?_, ?_⟩
    · show pyInt (lerp 255 255 ((t - 0.66) / 0.34)) = pyInt (lerp 255 255 ((u - 0.66) / 0.34))
      rw [lerp_self, lerp_self]
    · show pyInt (lerp 220 100 ((u - 0.66) / 0.34)) ≤ pyInt (lerp 220 100 ((t - 0.66) / 0.34))
      exact pyInt_lerp_le_of_ge (by norm_num) hdiv
    · show pyInt (lerp 80 40 ((u - 0.66) / 0.34)) ≤ pyInt (lerp 80 40 ((t - 0.66) / 0.34))
      exact pyInt_lerp_le_of_ge (by norm_num) hdiv

/-- Witness for C6 at concrete inputs. -/
theorem color_gradient_spec_witness :
    color_gradient (-1) = (80, 120, 200) ∧
    color_gradient 2 = (255, 100, 40) ∧
    (color_gradient 0.1).2.2 ≤ (color_gradient 0.2).2.2 ∧
    (color_gradient 0.5).2.1 ≤ (color_gradient 0.4).2.1 ∧
    (color_gradient 0.9).2.2 ≤ (color_gradient 0.7).2.2 :=
  ⟨color_gradient_spec.1 (-1) (by norm_num),
   color_gradient_spec.2.1 2 (by norm_num),
   (color_gradient_spec.2.2.2.1 0.1 0.2 (by norm_num) (by norm_num) (by norm_num)).2.2,
   (color_gradient_spec.2.2.2.2.1 0.4 0.5 (by norm_num) (by norm_num) (by norm_num)).2.1,
   (color_gradient_spec.2.2.2.2.2 0.7 0.9 (by norm_num) (by norm_num) (by norm_num)).2.2⟩

/-- C10: for every input `t`, including values far outside the unit interval,
`color_gradient` returns a triple of integers each lying in `[0, 255]`, so
the result is always a valid RGB color argument. -/
theorem color_gradient_rgb_valid (t : ℚ) :
    0 ≤ (color_gradient t).1 ∧ (color_gradient t).1 ≤ 255 ∧
    0 ≤ (color_gradient t).2.1 ∧ (color_gradient t).2.1 ≤ 255 ∧
    0 ≤ (color_gradient t).2.2 ∧ (color_gradient t).2.2 ≤ 255 := by
  obtain ⟨h0, h1⟩ := clampT_mem t
  unfold color_gradient
  split_ifs with ha hb
  · have hx0 : 0 ≤ clampT t / 0.33 := by positivity
    have hx1 : clampT t / 0.33 ≤ 1 := by
      rw [div_le_one (by norm_num)]
      linarith
    refine ⟨?_, ?_, ?_, ?_, ?_, ?_⟩
    · exact (pyInt_lerp_range (x := clampT t / 0.33) (by norm_num) (by norm_num)
        (by norm_num) (by norm_num) hx0 hx1).1
    · exact (pyInt_lerp_range (x := clampT t / 0.33) (a := 80) (b := 255) (by norm_num)
        (by norm_num) (by norm_num) (by norm_num) hx0 hx1).2
    · exact (pyInt_lerp_range (x := clampT t / 0.33) (a := 120) (b := 255) (by norm_num)
        (by norm_num) (by norm_num) (by norm_num) hx0 hx1).1
    · exact (pyInt_lerp_range (x := clampT t / 0.33) (a := 120) (b := 255) (by norm_num)
        (by norm_num) (by norm_num) (by norm_num) hx0 hx1).2
    · exact (pyInt_lerp_range (x := clampT t / 0.33) (a := 200) (b := 255) (by norm_num)
        (by norm_num) (by norm_num) (by norm_num) hx0 hx1).1
    · exact (pyInt_lerp_range (x := clampT t / 0.33) (a := 200) (b := 255) (by norm_num)
        (by norm_num) (by norm_num) (by norm_num) hx0 hx1).2
  · push_neg at ha
    have hx0 : 0 ≤ (clampT t - 0.33) / 0.33 := by
      apply div_nonneg _ (by norm_num)
      linarith
    have hx1 : (clampT t - 0.33) / 0.33 ≤ 1 := by
      rw [div_le_one (by norm_num)]
      linarith
    refine ⟨?_, ?_, ?_, ?_, ?_, ?_⟩
    · exact (pyInt_lerp_range (x := (clampT t - 0.33) / 0.33) (a := 255) (b := 255)
        (by norm_num) (by norm_num) (by norm_num) (by norm_num) hx0 hx1).1
    · exact (pyInt_lerp_range (x := (clampT t - 0.33) / 0.33) (a := 255) (b := 255)
        (by norm_num) (by norm_num) (by norm_num) (by norm_num) hx0 hx1).2
    · exact (pyInt_lerp_range (x := (clampT t - 0.33) / 0.33) (a := 255) (b := 220)
        (by norm_num) (by norm_num) (by norm_num) (by norm_num) hx0 hx1).1
    · exact (pyInt_lerp_range (x := (clampT t - 0.33) / 0.33) (a := 255) (b := 220)
        (by norm_num) (by norm_num) (by norm_num) (by norm_num) hx0 hx1).2
    · exact (pyInt_lerp_range (x := (clampT t - 0.33) / 0.33) (a := 255) (b := 80)
        (by norm_num) (by norm_num) (by norm_num) (by norm_num) hx0 hx1).1
    · exact (pyInt_lerp_range (x := (clampT t - 0.33) / 0.33) (a := 255) (b := 80)
        (by norm_num) (by norm_num) (by norm_num) (by norm_num) hx0 hx1).2
  · push_neg at ha hb
    have hx0 : 0 ≤ (clampT t - 0.66) / 0.34 := by
      apply div_nonneg _ (by norm_num)
      linarith
    have hx1 : (clampT t - 0.66) / 0.34 ≤ 1 := by
      rw [div_le_one (by norm_num)]
      linarith
    refine ⟨?_, ?_, ?_, ?_, ?_, ?_⟩
    · exact (pyInt_lerp_range (x := (clampT t - 0.66) / 0.34) (a := 255) (b := 255)
        (by norm_num) (by norm_num) (by norm_num) (by norm_num) hx0 hx1).1
    · exact (pyInt_lerp_range (x := (clampT t - 0.66) / 0.34) (a := 255) (b := 255)
        (by norm_num) (by norm_num) (by norm_num) (by norm_num) hx0 hx1).2
    · exact (pyInt_lerp_range (x := (clampT t - 0.66) / 0.34) (a := 220) (b := 100)
        (by norm_num) (by norm_num) (by norm_num) (by norm_num) hx0 hx1).1
    · exact (pyInt_lerp_range (x := (clampT t - 0.66) / 0.34) (a := 220) (b := 100)
        (by norm_num) (by norm_num) (by norm_num) (by norm_num) hx0 hx1).2
    · exact (pyInt_lerp_range (x := (clampT t - 0.66) / 0.34) (a := 80) (b := 40)
        (by norm_num) (by norm_num) (by norm_num) (by norm_num) hx0 hx1).1
    · exact (pyInt_lerp_range (x := (clampT t - 0.66) / 0.34) (a := 80) (b := 40)
        (by norm_num) (by norm_num) (by norm_num) (by norm_num) hx0 hx1).2

lemma star_update_z (s : Star) (speed offset_x offset_y rotation spiral cosr sinr : ℚ)
    (rd : ResetDraws) :
    (Star.update s speed offset_x offset_y rotation spiral cosr sinr rd).1.z =
      if s.z - speed ≤ 0.9 then rd.rz2 else s.z - speed := by
  simp only [Star.update, Star.reset, apply_ite Star.z]

/-- A sample star state whose depth is about to cross the near plane; its
trail currently holds two entries. -/
def sampleStar : Star :=
  { w := 1000, h := 700, x := 0, y := 0, z := 1,
    prev := [(0, 0, 5), (1, 1, 6)], base_size := 1, brightness := 1,
    is_shooting := false }

/-- A sample star state far from the near plane, with a two-entry trail. -/
def sampleStar2 : Star :=
  { w := 1000, h := 700, x := 0, y := 0, z := 500,
    prev := [(0, 0, 5), (1, 1, 6)], base_size := 1, brightness := 1,
    is_shooting := false }

/-- Sample random draws for a respawn, with the far-range draw in
`[0.6 · w, w]` for `w = 1000`. -/
def sampleDraws : ResetDraws :=
  { rx := 3, ry := 4, rz := 500, rsize := 1, rbright := 1, rz2 := 700 }

/-- C1: after `Star.update` the depth `z` is strictly greater than the
near-plane threshold `0.9`; whenever decrementing `z` by the speed leaves
`z ≤ 0.9` the star is respawned in place, taking the fresh random `(x, y)`
of `reset` and a `z` reassigned to the far-range draw, which
`random.uniform(w * 0.6, w)` guarantees to lie in `[0.6·w, w]`, a range
above the threshold for the configured width. -/
theorem star_update_near_plane (s : Star)
    (speed offset_x offset_y rotation spiral cosr sinr : ℚ) (rd : ResetDraws)
    (hlo : s.w * 0.6 ≤ rd.rz2) (hhi : rd.rz2 ≤ s.w) (hw : 0.9 < s.w * 0.6) :
    0.9 < (Star.update s speed offset_x offset_y rotation spiral cosr sinr rd).1.z ∧
    (s.z - speed ≤ 0.9 →
      (Star.update s speed offset_x offset_y rotation spiral cosr sinr rd).1.x = rd.rx ∧
      (Star.update s speed offset_x offset_y rotation spiral cosr sinr rd).1.y = rd.ry ∧
      (Star.update s speed offset_x offset_y rotation spiral cosr sinr rd).1.z = rd.rz2) := by
  constructor
  · rw [star_update_z]
    split_ifs with h
    · linarith
    · push_neg at h
      linarith
  · intro h
    refine ⟨?_, ?_, ?_⟩
    · simp only [Star.update, Star.reset, if_pos h]
    · simp only [Star.update, Star.reset, if_pos h]
    · simp only [Star.update, Star.reset, if_pos h]

/-- Witness for C1: a star crossing the near plane is respawned above it. -/
theorem star_update_near_plane_witness :
    0.9 < (Star.update sampleStar 0.5 0 0 0 0 1 0 sampleDraws).1.z ∧
    (Star.update sampleStar 0.5 0 0 0 0 1 0 sampleDraws).1.x = 3 := by
  have h := star_update_near_plane sampleStar 0.5 0 0 0 0 1 0 sampleDraws
    (by norm_num [sampleStar, sampleDraws]) (by norm_num [sampleStar, sampleDraws])
    (by norm_num [sampleStar])
  refine ⟨h.1, ?_⟩
  have h2 := h.2 (by norm_num [sampleStar])
  rw [h2.1]
  rfl

/-- Counterexample to C5 as stated: on a respawn frame `Star.update` clears
the whole trail, so more than the single oldest entry is dropped; here the
updated trail's tail is empty although the star entered the frame with two
recorded positions. -/
theorem trail_drop_counterexample :
    (Star.update sampleStar 0.5 0 0 0 0 1 0 sampleDraws).1.prev.tail ≠ sampleStar.prev ∧
    (Star.update sampleStar 0.5 0 0 0 0 1 0 sampleDraws).1.prev.tail ≠
      sampleStar.prev.dropLast := by
  have hz : sampleStar.z - 0.5 ≤ 0.9 := by norm_num [sampleStar]
  constructor <;>
  · simp only [Star.update, Star.reset, if_pos hz, TRAIL_LENGTH]
    first
      | (norm_num [sampleStar]; simp)
      | norm_num [sampleStar]

/-- C5 (amended): after `Star.update` the newly projected point is at the
front of the trail and the trail length is at most `TRAIL_LENGTH`; on
non-respawn frames at most the single oldest entry is dropped, while on a
respawn frame the whole history is cleared before the new point is
recorded. -/
theorem star_update_trail (s : Star)
    (speed offset_x offset_y rotation spiral cosr sinr : ℚ) (rd : ResetDraws)
    (hlen : s.prev.length ≤ TRAIL_LENGTH) :
    (Star.update s speed offset_x offset_y rotation spiral cosr sinr rd).1.prev.length ≤
      TRAIL_LENGTH ∧
    (Star.update s speed offset_x offset_y rotation spiral cosr sinr rd).1.prev.head? =
      some (Star.update s speed offset_x offset_y rotation spiral cosr sinr rd).2 ∧
    (s.z - speed ≤ 0.9 →
      (Star.update s speed offset_x offset_y rotation spiral cosr sinr rd).1.prev =
        [(Star.update s speed offset_x offset_y rotation spiral cosr sinr rd).2]) ∧
    (0.9 < s.z - speed →
      (Star.update s speed offset_x offset_y rotation spiral cosr sinr rd).1.prev.tail =
          s.prev ∨
        (Star.update s speed offset_x offset_y rotation spiral cosr sinr rd).1.prev.tail =
          s.prev.dropLast) := by
  by_cases hz : s.z - speed ≤ 0.9
  · simp only [Star.update, Star.reset, if_pos hz, List.length_cons, List.length_nil,
      TRAIL_LENGTH]
    norm_num
    intro h'
    linarith
  · push_neg at hz
    simp only [Star.update, Star.reset, if_neg (not_le.mpr hz), List.length_cons]
    by_cases hl : s.prev.length + 1 > TRAIL_LENGTH
    · have h6 : s.prev.length = TRAIL_LENGTH := by omega
      rw [if_pos hl]
      rcases hp : s.prev with _ | ⟨b, bs⟩
      · rw [hp] at h6
        simp [TRAIL_LENGTH] at h6
      · rw [hp] at h6
        simp only [List.length_cons, TRAIL_LENGTH] at h6
        refine ⟨?_, ?_, ?_, ?_⟩
        · simp only [List.dropLast_cons₂, List.length_cons, List.length_dropLast,
            TRAIL_LENGTH]
          omega
        · simp [List.dropLast_cons₂]
        · intro h'
          linarith
        · intro _
          right
          simp [List.dropLast_cons₂]
    · rw [if_neg hl]
      refine ⟨by simpa using by omega, rfl, ?_, fun _ => Or.inl rfl⟩
      intro h'
      linarith

/-- Witness for C5 at a concrete non-respawn update. -/
theorem star_update_trail_witness :
    (Star.update sampleStar2 1 0 0 0 0 1 0 sampleDraws).1.prev.length ≤ TRAIL_LENGTH ∧
    ((Star.update sampleStar2 1 0 0 0 0 1 0 sampleDraws).1.prev.tail = sampleStar2.prev ∨
      (Star.update sampleStar2 1 0 0 0 0 1 0 sampleDraws).1.prev.tail =
        sampleStar2.prev.dropLast) := by
  have h := star_update_trail sampleStar2 1 0 0 0 0 1 0 sampleDraws
    (by norm_num [sampleStar2, TRAIL_LENGTH])
  exact ⟨h.1, h.2.2.2 (by norm_num [sampleStar2])⟩

/-! Shooting-star lemmas and theorems. -/

lemma iterUpdate_age (s : ShootingStar) (n : ℕ) :
    (iterUpdate s n).age = s.age + n ∧ (iterUpdate s n).life = s.life := by
  induction n with
  | zero => exact ⟨rfl, rfl⟩
  | succ n ih =>
      refine ⟨?_, ?_⟩
      · show ((ShootingStar.update (iterUpdate s n)).1).age = s.age + (n + 1)
        simp only [ShootingStar.update]
        rw [ih.1]
        omega
      · show ((ShootingStar.update (iterUpdate s n)).1).life = s.life
        simp only [ShootingStar.update]
        exact ih.2

lemma update_alive (t : ShootingStar) :
    (ShootingStar.update t).2 = decide (t.age + 1 < t.life) := by
  simp [ShootingStar.update]

lemma shootingPass_nil_iff (t : ShootingStar) :
    shootingPass [t] = [] ↔ (ShootingStar.update t).2 = false := by
  simp only [shootingPass]
  cases h : (ShootingStar.update t).2 <;> simp [h]

/-- C3: a shooting star spawned with `age = 0` is removed from the active
collection exactly at the frame whose index equals its assigned lifetime:
the update of frame `k` returns dead for the first time at `k = life`, at
which point the star's age equals its lifetime; it is never removed before
or after. -/
theorem shooting_removed_iff_life (s : ShootingStar) (h0 : s.age = 0)
    (hl : 1 ≤ s.life) (k : ℕ) (hk : 1 ≤ k) :
    (removedAtFrame s k ↔ k = s.life) ∧ (iterUpdate s k).age = k := by
  have hage : ∀ n, (iterUpdate s n).age = n := by
    intro n
    rw [(iterUpdate_age s n).1, h0, Nat.zero_add]
  have halive : ∀ n, ((ShootingStar.update (iterUpdate s n)).2 = false ↔
      ¬ (n + 1 < s.life)) := by
    intro n
    rw [update_alive, hage n, (iterUpdate_age s n).2]
    simp
  refine ⟨?_, hage k⟩
  unfold removedAtFrame
  constructor
  · rintro ⟨h1, h2⟩
    rw [shootingPass_nil_iff, halive] at h1
    have h3 : ∀ m, m + 1 < k → m + 1 < s.life := by
      intro m hm
      have h4 := h2 m hm
      rw [Ne, shootingPass_nil_iff, halive] at h4
      push_neg at h4
      exact h4
    rcases Nat.lt_or_ge k 2 with hk2 | hk2
    · have hk1 : k = 1 := by omega
      subst hk1
      omega
    · have h5 := h3 (k - 2) (by omega)
      omega
  · intro hk_eq
    subst hk_eq
    constructor
    · rw [shootingPass_nil_iff, halive]
      omega
    · intro m hm
      rw [Ne, shootingPass_nil_iff, halive]
      exact not_not.mpr (by omega)

/-- A freshly spawned shooting star with a two-frame lifetime. -/
def sampleShooting : ShootingStar :=
  { w := 1000, h := 700, x := 500, y := -20, vx := 0, vy := 6,
    life := 2, age := 0, length := 50 }

/-- Witness for C3: the two-frame star is removed exactly at frame 2. -/
theorem shooting_removed_iff_life_witness :
    (removedAtFrame sampleShooting 2 ↔ 2 = sampleShooting.life) ∧
    (iterUpdate sampleShooting 2).age = 2 :=
  shooting_removed_iff_life sampleShooting rfl (by norm_num [sampleShooting]) 2
    (by norm_num)

lemma iterUpdate_linear (t : ShootingStar) (n : ℕ) :
    (iterUpdate t n).x = t.x + n * t.vx ∧ (iterUpdate t n).y = t.y + n * t.vy ∧
    (iterUpdate t n).vx = t.vx ∧ (iterUpdate t n).vy = t.vy := by
  induction n with
  | zero => refine ⟨by simp [iterUpdate], by simp [iterUpdate], rfl, rfl⟩
  | succ n ih =>
      obtain ⟨hx, hy, hvx, hvy⟩ := ih
      refine ⟨?_, ?_, ?_, ?_⟩
      · show ((ShootingStar.update (iterUpdate t n)).1).x = t.x + (↑(n + 1)) * t.vx
        simp only [ShootingStar.update]
        rw [hx, hvx]
        push_cast
        ring
      · show ((ShootingStar.update (iterUpdate t n)).1).y = t.y + (↑(n + 1)) * t.vy
        simp only [ShootingStar.update]
        rw [hy, hvy]
        push_cast
        ring
      · show ((ShootingStar.update (iterUpdate t n)).1).vx = t.vx
        simp only [ShootingStar.update]
        exact hvx
      · show ((ShootingStar.update (iterUpdate t n)).1).vy = t.vy
        simp only [ShootingStar.update]
        exact hvy

/-- C8 (amended): a spawned shooting star starts 20 pixels outside the top,
left, or right screen edge (never the bottom), with `age = 0` and the drawn
lifetime, and thereafter moves in a straight line: after `n` updates its
position is the spawn position plus `n` times the fixed velocity `(vx, vy)`,
which the updates never change. -/
theorem shooting_spawn_motion (width height : ℚ) (edge : Edge) (rpos rvx rvy : ℚ)
    (rlife : ℕ) (rlen : ℚ) :
    ((ShootingStar.spawn width height edge rpos rvx rvy rlife rlen).y = -20 ∨
      (ShootingStar.spawn width height edge rpos rvx rvy rlife rlen).x = -20 ∨
      (ShootingStar.spawn width height edge rpos rvx rvy rlife rlen).x = width + 20) ∧
    (ShootingStar.spawn width height edge rpos rvx rvy rlife rlen).age = 0 ∧
    (ShootingStar.spawn width height edge rpos rvx rvy rlife rlen).life = rlife ∧
    ∀ n : ℕ,
      (iterUpdate (ShootingStar.spawn width height edge rpos rvx rvy rlife rlen) n).x =
          (ShootingStar.spawn width height edge rpos rvx rvy rlife rlen).x +
            n * (ShootingStar.spawn width height edge rpos rvx rvy rlife rlen).vx ∧
      (iterUpdate (ShootingStar.spawn width height edge rpos rvx rvy rlife rlen) n).y =
          (ShootingStar.spawn width height edge rpos rvx rvy rlife rlen).y +
            n * (ShootingStar.spawn width height edge rpos rvx rvy rlife rlen).vy ∧
      (iterUpdate (ShootingStar.spawn width height edge rpos rvx rvy rlife rlen) n).vx =
          (ShootingStar.spawn width height edge rpos rvx rvy rlife rlen).vx ∧
      (iterUpdate (ShootingStar.spawn width height edge rpos rvx rvy rlife rlen) n).vy =
          (ShootingStar.spawn width height edge rpos rvx rvy rlife rlen).vy := by
  refine ⟨?_, ?_, ?_, fun n => iterUpdate_linear _ n⟩
  · cases edge
    · left
      rfl
    · right
      left
      rfl
    · right
      right
      rfl
  · cases edge <;> rfl
  · cases edge <;> rfl

/-- A top-edge spawn with concrete draws. -/
def spawnSample : ShootingStar := ShootingStar.spawn 1000 700 Edge.top 500 0 6 100 50

/-- Counterexample to C8 as stated: the top-edge spawn starts at `y = -20`,
which lies strictly outside the screen rectangle, hence on none of its
edges. -/
theorem shooting_spawn_edge_counterexample :
    ¬ onScreenEdge 1000 700 spawnSample.x spawnSample.y := by
  intro h
  have hy := h.2.2.2.1
  norm_num [spawnSample, ShootingStar.spawn] at hy

/-- C2 (amended): a star's circle and trail-line draw calls are issued only
when its current projected position passes the bounds check of line 321:
when the check fails the star contributes no draw-call coordinates at all.
Trail-line endpoints taken from the history and shooting-star coordinates
are not themselves bounds-checked. -/
theorem star_draw_guard (width height sx sy : ℚ) (prevs : List (ℚ × ℚ × ℚ))
    (trails : Bool) (h : inScreenB width height sx sy = false) :
    starDrawCoords width height sx sy prevs trails = [] := by
  simp [starDrawCoords, h]

/-- Witness for C2 at a concrete out-of-bounds projected position. -/
theorem star_draw_guard_witness :
    inScreenB 1000 700 (-5) 10 = false ∧
    starDrawCoords 1000 700 (-5) 10 [] true = [] := by
  have h : inScreenB 1000 700 (-5) 10 = false := by
    rw [inScreenB, decide_eq_false_iff_not]
    norm_num
  exact ⟨h, star_draw_guard 1000 700 (-5) 10 [] true h⟩

/-- A shooting star one frame after a top-edge spawn sits above the screen. -/
def sampleShootingC2 : ShootingStar :=
  { w := 1000, h := 700, x := 500, y := -20, vx := 0, vy := 6,
    life := 80, age := 0, length := 50 }

/-- Counterexample to C2 as stated: in the frame after this spawn the
shooting-star streak line is drawn with endpoint `(500, -14)`, whose
`y`-coordinate is negative, so a coordinate pair outside
`[0, width) × [0, height)` is passed to a draw call. -/
theorem draw_bounds_counterexample :
    ((500 : ℚ), (-14 : ℚ)) ∈ (shootingFrame sampleShootingC2).2.2 ∧
    inScreenB 1000 700 500 (-14) = false := by
  constructor
  · have halive : (ShootingStar.update sampleShootingC2).2 = true := by
      simp [ShootingStar.update, sampleShootingC2]
    simp only [shootingFrame, halive, if_true, ShootingStar.update, sampleShootingC2]
    norm_num
  · rw [inScreenB, decide_eq_false_iff_not]
    norm_num

/-- Counterexample to C4 as stated: after a failed audio-device init, `main`
still sets `audio_enabled = True`, because `if audio_analyzer:` is true for
any constructed analyzer object, failed stream or not. -/
theorem audio_enabled_after_failed_init : (audioSetup true true).2 = true := rfl

/-- C4 (amended): when the input-stream constructor or start raises, the
failure message is printed, the analyzer is left not running with a level of
0, and the per-frame audio influence is nil: the exposed level is 0 and the
speed multiplier is unchanged, exactly as if audio sync were off.  However
`audio_enabled` is set to `True` by the setup code, not left `False`. -/
theorem audio_init_failure_behavior :
    (AudioAnalyzer.start true).2 = true ∧
    (AudioAnalyzer.start true).1.running = false ∧
    AudioAnalyzer.get_level (AudioAnalyzer.start true).1 = 0 ∧
    (∀ sm : ℚ, audioInfluence (audioSetup true true).2 (audioSetup true true).1 sm =
      (0, sm)) ∧
    (audioSetup true true).2 = true := by
  refine ⟨rfl, rfl, rfl, ?_, rfl⟩
  intro sm
  show audioInfluence true (some (AudioAnalyzer.start true).1) sm = (0, sm)
  simp only [audioInfluence, AudioAnalyzer.get_level, AudioAnalyzer.start]
  norm_num [clamp]

/-- C7: pressing the trails-toggle key while trails are enabled turns trails
off, clears every pixel of the trail surface to fully transparent in the
same event-handling step, and leaves all other mode flags unchanged. -/
theorem trails_toggle_clears (st : LoopState) (audioAvail hasAnalyzer : Bool)
    (h : st.trails_enabled = true) :
    (handleKeydown st Key.t audioAvail hasAnalyzer).trails_enabled = false ∧
    (∀ i j : ℕ,
      (handleKeydown st Key.t audioAvail hasAnalyzer).trail_surf i j = (0, 0, 0, 0)) ∧
    (handleKeydown st Key.t audioAvail hasAnalyzer).spiral_enabled = st.spiral_enabled ∧
    (handleKeydown st Key.t audioAvail hasAnalyzer).color_mode = st.color_mode ∧
    (handleKeydown st Key.t audioAvail hasAnalyzer).audio_enabled = st.audio_enabled ∧
    (handleKeydown st Key.t audioAvail hasAnalyzer).running = st.running := by
  simp [handleKeydown, h]

/-- A loop state with trails on and a dirty trail surface. -/
def sampleLoopState : LoopState :=
  { spiral_enabled := false, trails_enabled := true, color_mode := true,
    audio_enabled := false, running := true,
    trail_surf := fun _ _ => (255, 255, 255, 200) }

/-- Witness for C7 on a concrete loop state. -/
theorem trails_toggle_clears_witness :
    (handleKeydown sampleLoopState Key.t true true).trails_enabled = false ∧
    (handleKeydown sampleLoopState Key.t true true).trail_surf 3 5 = (0, 0, 0, 0) ∧
    (handleKeydown sampleLoopState Key.t true true).color_mode =
      sampleLoopState.color_mode := by
  have h := trails_toggle_clears sampleLoopState true true rfl
  exact ⟨h.1, h.2.1 3 5, h.2.2.2.1⟩

lemma runCallbacks_level_mem (es : List AudioBlockEvent) (a : AudioAnalyzer)
    (h0 : 0 ≤ a.latest_level) (h1 : a.latest_level ≤ 1.5) :
    0 ≤ (AudioAnalyzer.runCallbacks a es).latest_level ∧
    (AudioAnalyzer.runCallbacks a es).latest_level ≤ 1.5 := by
  induction es generalizing a with
  | nil => exact ⟨h0, h1⟩
  | cons e rest ih =>
      show 0 ≤ (AudioAnalyzer.runCallbacks (AudioAnalyzer.callbackStep a e) rest).latest_level ∧
        (AudioAnalyzer.runCallbacks (AudioAnalyzer.callbackStep a e) rest).latest_level ≤ 1.5
      rcases e with val | r
      · refine ih _ ?_ ?_
        · show (0 : ℚ) ≤ clamp (val * 10) 0 1.5
          exact (clamp_mem (by norm_num)).1
        · show clamp (val * 10) 0 1.5 ≤ 1.5
          exact (clamp_mem (by norm_num)).2
      · refine ih _ ?_ ?_
        · show (0 : ℚ) ≤ clamp (r * 10) 0 1.5
          exact (clamp_mem (by norm_num)).1
        · show clamp (r * 10) 0 1.5 ≤ 1.5
          exact (clamp_mem (by norm_num)).2

/-- C9: `get_level` returns 0 before any audio callback has run, and after
any sequence of delivered audio blocks (FFT branch or RMS fallback) the
exposed level lies in the clamped heuristic range `[0, 1.5]`. -/
theorem audio_level_clamped :
    (∀ streamFails : Bool,
      AudioAnalyzer.get_level (AudioAnalyzer.start streamFails).1 = 0) ∧
    (∀ (streamFails : Bool) (es : List AudioBlockEvent),
      0 ≤ AudioAnalyzer.get_level
          (AudioAnalyzer.runCallbacks (AudioAnalyzer.start streamFails).1 es) ∧
      AudioAnalyzer.get_level
          (AudioAnalyzer.runCallbacks (AudioAnalyzer.start streamFails).1 es) ≤ 1.5) := by
  constructor
  · intro sf
    cases sf <;> rfl
  · intro sf es
    cases sf
    · exact runCallbacks_level_mem es _ (le_refl 0) (by norm_num : (0 : ℚ) ≤ 1.5)
    · exact runCallbacks_level_mem es _ (le_refl 0) (by norm_num : (0 : ℚ) ≤ 1.5)

end Starfield
